import Mathlib

/-!
# Verification of the swipl-rs activation/context/query lifecycle protocol

A shallow embedding of the parts of `swipl` (the Rust safety layer over the
SWI-Prolog foreign language interface) that the specification's claims are
about:

* `src/swipl/src/callable.rs` — `LazyCallablePredicate`, `CallablePredicate`,
  the `Callable` trait, `OpenQuery` and the `OpenCall` implementation
  (`next_solution`, `cut`, `discard`), `Context::once`, `Context::ignore`,
  and the `Drop` implementation for `OpenQuery`.
* `src/swipl/src/term.rs` — `Term`, `Term::assert_term_handling_possible`,
  the `unifiable!` / `term_getable!` macro wrappers, `Term::get_str`, and the
  `&Term` unification instance.
* `src/swipl/src/term/de.rs` — the serde deserializer's narrow-integer paths
  and the dict `KeyDeserializer`.

The engine itself (the SWI-Prolog C library reached through `fli`) is external
to the sources; its primitive calls are modelled as explicit state transitions
on an `EngineState´` record together with oracle parameters for the values the
engine returns (solve-step result codes, unification outcomes, predicate
resolution).  A Rust `panic!`/`assert!` is modelled by the `Outcome.fatal`
constructor; ordinary returns are `Outcome.ok`.
-/

namespace SwiplRs

/-- Outcome of a Rust computation that may abort the process: `ok` is a normal
return, `fatal` is a `panic!`/failed `assert!` (a fatal protocol violation). -/
inductive Outcome (α : Type) : Type where
  | ok (val : α)
  | fatal (msg : String)
deriving Repr, DecidableEq

/-- `result::PrologError`: the recoverable half of the tri-state result model,
either a logical failure or an engine-level exception.  (`result.rs` is not
among the provided sources; the enum shape is fixed by its uses in
`callable.rs` and by the spec's tri-state result model.) -/
inductive PrologError : Type where
  | Failure
  | Exception
deriving Repr, DecidableEq

/-- `result::PrologResult<T> = Result<T, PrologError>`. -/
abbrev PrologResult (α : Type) : Type := Except PrologError α

/-- The engine-global state the embedded operations read and write.
`pending_exception` is the sticky current exception (what `PL_exception(0)`
observes, set by `PL_raise_exception`); `query_exception qid` is the pending
exception value `PL_exception(qid)` fetches for an open query; `next_term_ref`
and `next_qid` model the allocation counters behind `PL_new_term_refs` and
`PL_open_query`.  These primitives belong to the external engine (§6 of the
spec), not to the embedded sources. -/
structure EngineState : Type where
  pending_exception : Option Nat
  query_exception : Nat → Nat
  next_term_ref : Nat
  next_qid : Nat

/-- `context::Context<T>`: the phase-tagged capability object.  Only the
fields the embedded operations touch are modelled: the `activated` flag, the
engine pointer, and the phase payload `context` (for a query context, the
`OpenQuery`). -/
structure Context (τ : Type) : Type where
  activated : Bool
  engine_ptr : Nat
  context : τ

/-- Modelled from the spec: `Context::assert_activated` (`context.rs` is not
among the provided sources).  Every state-mutating operation must first
confirm its `Context` is the currently active one; violation is a fatal
programming error, not a recoverable result. -/
def Context.assert_activated {τ : Type} (this : Context τ) : Outcome Unit :=
  if this.activated then Outcome.ok () else Outcome.fatal "assert_activated: context is not active"

/-- Modelled from the spec: `Context::assert_no_exception` (`context.rs` is
not among the provided sources).  Before opening a new query, any pending
engine-level exception must be absent; otherwise the open is refused
(fatally, like the other protocol assertions). -/
def Context.assert_no_exception {τ : Type} (_this : Context τ) (s : EngineState) : Outcome Unit :=
  if s.pending_exception = none then Outcome.ok ()
  else Outcome.fatal "assert_no_exception: a prolog exception is pending"

/-- `callable::OpenQuery`: the query id handed out by `PL_open_query`
together with the closed flag maintained by `cut`/`discard`/`Drop`. -/
structure OpenQuery : Type where
  qid : Nat
  closed : Bool
deriving Repr, DecidableEq

/-- The engine operations that release a query id: `PL_cut_query` and
`PL_close_query`. -/
inductive QueryOp : Type where
  | cut_query (qid : Nat)
  | close_query (qid : Nat)
deriving Repr, DecidableEq

/-- `OpenCall::next_solution` for `OpenQuery` (callable.rs:248-264).  The
result code of the solve step `PL_next_solution` is produced by the external
engine and is taken as the parameter `code`.  On `-1` the pending exception
for the query is fetched (`PL_exception(qid)`) and re-raised
(`PL_raise_exception`) as the sticky current exception, then
`Err(Exception)` is returned; `0` is `Err(Failure)`, `1` is `Ok(true)`,
`2` is `Ok(false)`, and any other code panics. -/
def OpenQuery.next_solution (this : Context OpenQuery) (s : EngineState) (code : Int) :
    Outcome (PrologResult Bool × EngineState) :=
  match this.assert_activated with
  | Outcome.fatal m => Outcome.fatal m
  | Outcome.ok _ =>
    if code = -1 then
      let exception := s.query_exception this.context.qid
      -- rethrow this exception but as the special 0 exception which remains alive
      Outcome.ok (Except.error PrologError.Exception,
        { s with pending_exception := some exception })
    else if code = 0 then
      Outcome.ok (Except.error PrologError.Failure, s)
    else if code = 1 then
      Outcome.ok (Except.ok true, s)
    else if code = 2 then
      Outcome.ok (Except.ok false, s)
    else
      Outcome.fatal ("unknown query result type " ++ toString code)

/-- `OpenCall::cut` for `OpenQuery` (callable.rs:266-272): assert the context
is active, release the query id through `PL_cut_query`, and mark the query
closed.  The returned `OpenQuery` is the final state of the consumed
context's payload (what the `Drop` implementation will observe). -/
def OpenQuery.cut (this : Context OpenQuery) : Outcome (OpenQuery × List QueryOp) :=
  match this.assert_activated with
  | Outcome.fatal m => Outcome.fatal m
  | Outcome.ok _ =>
    Outcome.ok ({ this.context with closed := true }, [QueryOp.cut_query this.context.qid])

/-- `OpenCall::discard` for `OpenQuery` (callable.rs:274-280): assert the
context is active, release the query id through `PL_close_query`, and mark
the query closed. -/
def OpenQuery.discard (this : Context OpenQuery) : Outcome (OpenQuery × List QueryOp) :=
  match this.assert_activated with
  | Outcome.fatal m => Outcome.fatal m
  | Outcome.ok _ =>
    Outcome.ok ({ this.context with closed := true }, [QueryOp.close_query this.context.qid])

/-- `impl Drop for OpenQuery` (callable.rs:283-289): a query whose closed
flag is still false is closed through `PL_close_query`; otherwise dropping
performs no engine operation. -/
def OpenQuery.drop (self : OpenQuery) : List QueryOp :=
  if self.closed then [] else [QueryOp.close_query self.qid]

/-- The engine operations performed on the exit path that cuts the query and
then (at end of scope) drops it: `cut` consumes the context, so the drop of
the contained `OpenQuery` runs right after `cut` marks it closed. -/
def cut_then_drop (this : Context OpenQuery) : Outcome (List QueryOp) :=
  match OpenQuery.cut this with
  | Outcome.fatal m => Outcome.fatal m
  | Outcome.ok (q, ops) => Outcome.ok (ops ++ OpenQuery.drop q)

/-- The engine operations performed on the exit path that discards the query
and then drops it. -/
def discard_then_drop (this : Context OpenQuery) : Outcome (List QueryOp) :=
  match OpenQuery.discard this with
  | Outcome.fatal m => Outcome.fatal m
  | Outcome.ok (q, ops) => Outcome.ok (ops ++ OpenQuery.drop q)

/-- `Context::once` (callable.rs:223-228): `self.next_solution()?` then
`self.cut()`.  The `?` on an `Err` returns early, at which point the owned
context (and its `OpenQuery`) is dropped; on `Ok` the query is cut and the
final (closed) query is dropped at the end of `cut`.  The returned list
collects the engine operations that release the query id. -/
def Context.once (this : Context OpenQuery) (s : EngineState) (code : Int) :
    Outcome (PrologResult Unit × EngineState × List QueryOp) :=
  match OpenQuery.next_solution this s code with
  | Outcome.fatal m => Outcome.fatal m
  | Outcome.ok (Except.error e, s') =>
    Outcome.ok (Except.error e, s', OpenQuery.drop this.context)
  | Outcome.ok (Except.ok _, s') =>
    match OpenQuery.cut this with
    | Outcome.fatal m => Outcome.fatal m
    | Outcome.ok (q, ops) => Outcome.ok (Except.ok (), s', ops ++ OpenQuery.drop q)

/-- `Context::ignore` (callable.rs:233-241): if `next_solution()` returned
`Err(Exception)` that error is propagated (and the dropped context discards
the query); otherwise — on `Ok` or on `Err(Failure)` — the query is cut and
`Ok(())` is returned. -/
def Context.ignore (this : Context OpenQuery) (s : EngineState) (code : Int) :
    Outcome (PrologResult Unit × EngineState × List QueryOp) :=
  match OpenQuery.next_solution this s code with
  | Outcome.fatal m => Outcome.fatal m
  | Outcome.ok (Except.error PrologError.Exception, s') =>
    Outcome.ok (Except.error PrologError.Exception, s', OpenQuery.drop this.context)
  | Outcome.ok (_, s') =>
    match OpenQuery.cut this with
    | Outcome.fatal m => Outcome.fatal m
    | Outcome.ok (q, ops) => Outcome.ok (Except.ok (), s', ops ++ OpenQuery.drop q)

/-- `module::Module`: only its raw pointer is relevant to `open`.
(`module.rs` is not among the provided sources; `callable.rs` uses exactly
`module_ptr`.) -/
structure Module : Type where
  module_ptr : Nat
deriving Repr, DecidableEq

/-- `predicate::Predicate`: a resolved predicate reference exposing its
`arity()` (a `u16`) and its raw `predicate_ptr()`.  (`predicate.rs` is not
among the provided sources; `callable.rs` uses exactly these two
accessors.) -/
structure Predicate : Type where
  arity : Nat
  predicate_ptr : Nat
deriving Repr, DecidableEq

/-- `callable::PredicateWrapError::WrongArity { expected, actual }` — the
only variant of `PredicateWrapError`.  Both fields are `u16` in the source;
`expected` is filled with `N as u16`. -/
structure WrongArity : Type where
  expected : Nat
  actual : Nat
deriving Repr, DecidableEq

/-- `callable::CallablePredicate<N>`: a raw predicate pointer wrapped after
an arity check (the arity `N` lives at the type level in Rust and is passed
explicitly here). -/
structure CallablePredicate : Type where
  predicate : Nat
deriving Repr, DecidableEq

/-- Modelled from the spec: `engine::assert_some_engine_is_active`
(`engine.rs` is not among the provided sources).  The calling thread must
have an engine activated; violation is a fatal programming error. -/
def assert_some_engine_is_active (engine_active : Bool) : Outcome Unit :=
  if engine_active then Outcome.ok ()
  else Outcome.fatal "assert_some_engine_is_active: no engine is active"

/-- `CallablePredicate::new` (callable.rs:111-122): after asserting an
engine is active, compare the predicate's real arity (as `usize`) against
the const generic `N`; on mismatch return
`Err(WrongArity { expected: N as u16, actual: arity })`, otherwise `Ok` of
the wrapped predicate pointer.  `N as u16` truncates: it is `N % 2^16`. -/
def CallablePredicate.new (N : Nat) (engine_active : Bool) (predicate : Predicate) :
    Outcome (Except WrongArity CallablePredicate) :=
  match assert_some_engine_is_active engine_active with
  | Outcome.fatal m => Outcome.fatal m
  | Outcome.ok _ =>
    let arity := predicate.arity
    if arity ≠ N then
      Outcome.ok (Except.error { expected := N % 65536, actual := arity })
    else
      Outcome.ok (Except.ok { predicate := predicate.predicate_ptr })

/-! ## The lazy predicate cache (`LazyCallablePredicate`) -/

/-- `callable::LazyCallablePredicate<N>`: module name, predicate name, and
the atomic cache cell.  The `AtomicPtr<c_void>` is modelled as a `Nat` whose
value `0` is the null pointer (`LazyCallablePredicate::new` initialises it
to null). -/
structure LazyCallablePredicate : Type where
  module : Option String
  name : String
  predicate : Nat
deriving Repr, DecidableEq

/-- `LazyCallablePredicate::new` (callable.rs:27-33). -/
def LazyCallablePredicate.new (module : Option String) (name : String) :
    LazyCallablePredicate :=
  { module := module, name := name, predicate := 0 }

/-- What one call to `as_callable` produced: the returned wrapper, the cache
cell's state after the call, and whether the underlying lookup ran. -/
structure AsCallableResult : Type where
  callable : CallablePredicate
  after : LazyCallablePredicate
  looked_up : Bool
deriving Repr, DecidableEq

/-- `LazyCallablePredicate::as_callable` (callable.rs:39-54): assert an
engine is active, load the cache cell; if it is null, resolve
`Predicate::new(Functor::new(name, N as u16), Module::new(module.unwrap_or("")))`
and store the resulting pointer in the cell; finally wrap the loaded
pointer.  The resolution
(`Predicate::new(..).predicate_ptr()`, external lookup through the engine)
is a pure function of `(module name, predicate name, arity)` and is taken as
the oracle parameter `resolve`. -/
def LazyCallablePredicate.as_callable (resolve : String → String → Nat → Nat)
    (engine_active : Bool) (N : Nat) (self : LazyCallablePredicate) :
    Outcome AsCallableResult :=
  match assert_some_engine_is_active engine_active with
  | Outcome.fatal m => Outcome.fatal m
  | Outcome.ok _ =>
    let loaded := self.predicate
    if loaded = 0 then
      let module_name := self.module.getD ""
      let loaded := resolve module_name self.name (N % 65536)
      Outcome.ok { callable := { predicate := loaded },
                   after := { self with predicate := loaded },
                   looked_up := true }
    else
      Outcome.ok { callable := { predicate := loaded }, after := self, looked_up := false }

/-- A sequential run of `k` calls to `as_callable` on the same cell (the
cache cell's state threads from call to call).  With an active engine
`as_callable` never aborts, so the `fatal` branch is unreachable here. -/
def LazyCallablePredicate.as_callable_iter (resolve : String → String → Nat → Nat)
    (N : Nat) : Nat → LazyCallablePredicate → List AsCallableResult
  | 0, _ => []
  | k + 1, self =>
    match LazyCallablePredicate.as_callable resolve true N self with
    | Outcome.ok r => r :: LazyCallablePredicate.as_callable_iter resolve N k r.after
    | Outcome.fatal _ => []

/-! ## Opening a query (`Callable<N> for CallablePredicate<N>`) -/

/-- Query flag constants from the SWI-Prolog interface header (part of the
external `fli`, not of the embedded sources). -/
def PL_Q_NORMAL : Nat := 2

/-- See `PL_Q_NORMAL`. -/
def PL_Q_CATCH_EXCEPTION : Nat := 8

/-- See `PL_Q_NORMAL`. -/
def PL_Q_EXT_STATUS : Nat := 64

/-- The flags `CallablePredicate::open` passes to `PL_open_query`
(callable.rs:305). -/
def open_query_flags : Nat := PL_Q_NORMAL ||| PL_Q_CATCH_EXCEPTION ||| PL_Q_EXT_STATUS

/-- The engine calls `CallablePredicate::open` performs, in order. -/
inductive OpenEvent : Type where
  | new_term_refs (base : Nat) (n : Nat)
  | unify (slot : Nat) (arg : Nat) (ok : Bool)
  | open_query (module_ptr : Nat) (flags : Nat) (predicate : Nat) (terms : Nat)
deriving Repr, DecidableEq

/-- The argument-unification loop of `CallablePredicate::open`
(callable.rs:308-311): for each `i`, unify the fresh slot `terms + i` with
`args[i]` and `assert!` that the unification succeeded — a failed
unification against a fresh slot is a fatal invariant violation.  The
engine's unification outcome (`Term::unify`, ultimately `PL_unify`) is the
oracle `unify_ok`; arguments are the raw `term_t` values of the `args`
array. -/
def open_unify_args (unify_ok : Nat → Nat → Bool) (terms : Nat) :
    Nat → List Nat → Outcome (List OpenEvent)
  | _, [] => Outcome.ok []
  | i, arg :: rest =>
    if unify_ok (terms + i) arg then
      match open_unify_args unify_ok terms (i + 1) rest with
      | Outcome.fatal m => Outcome.fatal m
      | Outcome.ok evs => Outcome.ok (OpenEvent.unify (terms + i) arg true :: evs)
    else
      Outcome.fatal "assertion failed: term.unify(arg).is_ok()"

/-- What `CallablePredicate::open` produced: the parent context's
`activated` flag after the call, the freshly activated child query context,
the engine state after the call, and the engine calls made. -/
structure OpenResult : Type where
  parent_activated : Bool
  child : Context OpenQuery
  state : EngineState
  events : List OpenEvent

/-- `Callable<N> for CallablePredicate<N>::open` (callable.rs:294-325):
assert the context is activated and that no exception is pending, compute
the module context pointer (`null` when no module is given), allocate `N`
fresh term slots with `PL_new_term_refs`, unify slot `i` with `args[i]`
asserting success, open the query through `PL_open_query`, deactivate the
parent context, and return a newly activated child context holding
`OpenQuery { qid, closed: false }`.  (`Context::deactivate` and
`Context::new_activated` live in `context.rs`, not among the provided
sources; they are modelled from the spec as clearing the parent's
`activated` flag and building an activated child on the same engine.) -/
def CallablePredicate.open_ (self : CallablePredicate)
    (unify_ok : Nat → Nat → Bool) {τ : Type} (context : Context τ)
    (s : EngineState) (module : Option Module) (args : List Nat) :
    Outcome OpenResult :=
  match context.assert_activated with
  | Outcome.fatal m => Outcome.fatal m
  | Outcome.ok _ =>
  match context.assert_no_exception s with
  | Outcome.fatal m => Outcome.fatal m
  | Outcome.ok _ =>
    let module_context := (module.map Module.module_ptr).getD 0
    let flags := open_query_flags
    let terms := s.next_term_ref
    let s₁ := { s with next_term_ref := s.next_term_ref + args.length }
    match open_unify_args unify_ok terms 0 args with
    | Outcome.fatal m => Outcome.fatal m
    | Outcome.ok unify_events =>
      let qid := s₁.next_qid
      let s₂ := { s₁ with next_qid := s₁.next_qid + 1 }
      let query : OpenQuery := { qid := qid, closed := false }
      Outcome.ok
        { parent_activated := false
          child := { activated := true, engine_ptr := context.engine_ptr, context := query }
          state := s₂
          events := OpenEvent.new_term_refs terms args.length :: unify_events
            ++ [OpenEvent.open_query module_context flags self.predicate terms] }

/-! ## Terms and the engine-matching assertions (`term.rs`) -/

/-- `term::TermOrigin`: the two queries a term can make about the context it
was created in — `origin_engine_ptr()` and `is_engine_active()`.  Its
implementors live in `context.rs`; only this interface is used by
`term.rs`. -/
structure TermOrigin : Type where
  origin_engine_ptr : Nat
  is_engine_active : Bool
deriving Repr, DecidableEq

/-- Modelled from the spec: `TermOrigin::context()` (implemented in
`context.rs`, not among the provided sources) produces a context for the
term's originating engine. -/
def TermOrigin.context_of (o : TermOrigin) : Context Unit :=
  { activated := o.is_engine_active, engine_ptr := o.origin_engine_ptr, context := () }

/-- `term::Term`: a raw `term_t` together with its originating context. -/
structure Term : Type where
  term : Nat
  context : TermOrigin
deriving Repr, DecidableEq

/-- `Term::assert_term_handling_possible` (term.rs:21-29): panic if the
term's originating engine is not the currently active one, or if the
supplied context's engine differs from the term's originating engine. -/
def Term.assert_term_handling_possible {τ : Type} (self : Term) (context : Context τ) :
    Outcome Unit :=
  if ¬ self.context.is_engine_active then
    Outcome.fatal "term is not part of an active engine"
  else if self.context.origin_engine_ptr ≠ context.engine_ptr then
    Outcome.fatal "term unification called with a context whose engine does not match this term"
  else
    Outcome.ok ()

/-- The `unifiable!` macro (term.rs:114-129): every generated
`Unifiable::unify` implementation first runs
`term.assert_term_handling_possible(context)` and only then the
instance-specific body (which may itself abort). -/
def unifiable_unify {α τ : Type} (body : α → Context τ → Term → Outcome Bool)
    (self : α) (context : Context τ) (term : Term) : Outcome Bool :=
  match term.assert_term_handling_possible context with
  | Outcome.fatal m => Outcome.fatal m
  | Outcome.ok _ => body self context term

/-- The `term_getable!` macro (term.rs:131-146): every generated
`TermGetable::get` implementation first runs
`term.assert_term_handling_possible(context)` and only then the
instance-specific body. -/
def term_getable_get {β τ : Type} (body : Context τ → Term → Outcome (Option β))
    (context : Context τ) (term : Term) : Outcome (Option β) :=
  match term.assert_term_handling_possible context with
  | Outcome.fatal m => Outcome.fatal m
  | Outcome.ok _ => body context term

/-- The body of the `unifiable!` instance for `&Term` (term.rs:148-160):
panic when the two terms' originating engines differ, otherwise call
`PL_unify` (the engine's unification, taken as the oracle `pl_unify`). -/
def term_unify_term_body (pl_unify : Nat → Nat → Bool) {τ : Type}
    (self : Term) (_context : Context τ) (term : Term) : Outcome Bool :=
  if self.context.origin_engine_ptr ≠ term.context.origin_engine_ptr then
    Outcome.fatal "terms being unified are not part of the same engine"
  else
    Outcome.ok (pl_unify self.term term.term)

/-- `Unifiable for &Term` as generated by the `unifiable!` macro: the
assertion followed by the `&Term` body. -/
def term_unify_term (pl_unify : Nat → Nat → Bool) {τ : Type}
    (self : Term) (context : Context τ) (term : Term) : Outcome Bool :=
  unifiable_unify (term_unify_term_body pl_unify) self context term

/-- `Term::get_str` (term.rs:43-71): obtain the originating context, assert
term handling is possible against it, call `PL_get_nchars` (oracle
`pl_get_nchars`: `none` models a zero result, `some` the extracted string),
and apply `func` to the optional string. -/
def Term.get_str {R : Type} (self : Term) (pl_get_nchars : Nat → Option String)
    (func : Option String → R) : Outcome R :=
  let context := self.context.context_of
  match self.assert_term_handling_possible context with
  | Outcome.fatal m => Outcome.fatal m
  | Outcome.ok _ => Outcome.ok (func (pl_get_nchars self.term))

/-! ## The serde deserializer (`term/de.rs`) -/

/-- The content of a prolog term as far as the deserializer's integer and
dict-key paths observe it. -/
inductive PValue : Type where
  | int (i : Int)
  | atom (name : String)
  | str (s : String)
  | other
deriving Repr, DecidableEq

/-- `Term::get::<i64>` (term.rs:216-227, backed by `PL_cvt_i_int64`):
succeeds exactly on a term holding an integer representable in a signed
64-bit machine word. -/
def term_get_i64 (t : PValue) : Option Int :=
  match t with
  | PValue.int i =>
    if -9223372036854775808 ≤ i ∧ i ≤ 9223372036854775807 then some i else none
  | _ => none

/-- `Term::get::<u64>` (term.rs:195-206, backed by `PL_cvt_i_uint64`):
succeeds exactly on a term holding an integer representable in an unsigned
64-bit machine word (in particular, never on a negative integer). -/
def term_get_u64 (t : PValue) : Option Int :=
  match t with
  | PValue.int i => if 0 ≤ i ∧ i ≤ 18446744073709551615 then some i else none
  | _ => none

/-- `term::de::Error` (de.rs:43-52).  The `PrologError` variant's
`PrologException` payload is modelled as a raw term value. -/
inductive DeError : Type where
  | Message (msg : String)
  | PrologError (e : Nat)
  | UnsupportedValue
  | UnexpectedType (t : String)
  | ValueNotOfExpectedType (t : String)
  | ValueOutOfRange
  | UnificationFailed
deriving Repr, DecidableEq

/-- `Deserializer::deserialize_i8` (de.rs:345-359): read the term as `i64`
(`attempt_opt` turns a prolog failure into `None`; the pure model has no
exception channel on this path), range-check against `i8`, and visit the
value (`visit_i8(i as i8)`, the identity on in-range values).  A term not
readable as `i64` yields `ValueNotOfExpectedType("i8")`. -/
def deserialize_i8 (t : PValue) : Except DeError Int :=
  match term_get_i64 t with
  | some i =>
    if -128 ≤ i ∧ i ≤ 127 then Except.ok i else Except.error DeError.ValueOutOfRange
  | none => Except.error (DeError.ValueNotOfExpectedType "i8")

/-- `Deserializer::deserialize_i16` (de.rs:360-374). -/
def deserialize_i16 (t : PValue) : Except DeError Int :=
  match term_get_i64 t with
  | some i =>
    if -32768 ≤ i ∧ i ≤ 32767 then Except.ok i else Except.error DeError.ValueOutOfRange
  | none => Except.error (DeError.ValueNotOfExpectedType "i16")

/-- `Deserializer::deserialize_i32` (de.rs:375-389). -/
def deserialize_i32 (t : PValue) : Except DeError Int :=
  match term_get_i64 t with
  | some i =>
    if -2147483648 ≤ i ∧ i ≤ 2147483647 then Except.ok i
    else Except.error DeError.ValueOutOfRange
  | none => Except.error (DeError.ValueNotOfExpectedType "i32")

/-- `Deserializer::deserialize_u8` (de.rs:399-413): read the term as `u64`
and range-check against `u8`. -/
def deserialize_u8 (t : PValue) : Except DeError Int :=
  match term_get_u64 t with
  | some i => if i ≤ 255 then Except.ok i else Except.error DeError.ValueOutOfRange
  | none => Except.error (DeError.ValueNotOfExpectedType "u8")

/-- `Deserializer::deserialize_u16` (de.rs:414-428). -/
def deserialize_u16 (t : PValue) : Except DeError Int :=
  match term_get_u64 t with
  | some i => if i ≤ 65535 then Except.ok i else Except.error DeError.ValueOutOfRange
  | none => Except.error (DeError.ValueNotOfExpectedType "u16")

/-- `Deserializer::deserialize_u32` (de.rs:429-443). -/
def deserialize_u32 (t : PValue) : Except DeError Int :=
  match term_get_u64 t with
  | some i => if i ≤ 4294967295 then Except.ok i else Except.error DeError.ValueOutOfRange
  | none => Except.error (DeError.ValueNotOfExpectedType "u32")

/-- `dict::Key` (`dict.rs` is not among the provided sources; the enum shape
— an atom key or a `u64` integer key — is fixed by the `KeyDeserializer`
match arms in de.rs).  The atom is modelled by its name, the `u64` by a
natural number. -/
inductive Key : Type where
  | Atom (name : String)
  | Int (i : Nat)
deriving Repr, DecidableEq

/-- `KeyDeserializer::deserialize_string` (de.rs:900-909): an atom key
visits the atom's name (`Atom`'s `Display` prints its name); an integer key
visits the integer's decimal representation (`i.to_string()`). -/
def key_deserialize_string (key : Key) : Except DeError String :=
  match key with
  | Key.Atom a => Except.ok a
  | Key.Int i => Except.ok (Nat.repr i)

/-- `KeyDeserializer::deserialize_identifier` (de.rs:1015-1024): same
mapping as `deserialize_string`. -/
def key_deserialize_identifier (key : Key) : Except DeError String :=
  match key with
  | Key.Atom a => Except.ok a
  | Key.Int i => Except.ok (Nat.repr i)

/-- Deserializing all keys of a dict into strings (the map-with-string-keys
scenario): `MapAccess::next_key_seed` runs `KeyDeserializer` on each entry's
key in turn, stopping at the first error. -/
def map_keys_as_strings {α : Type} : List (Key × α) → Except DeError (List (String × α))
  | [] => Except.ok []
  | (k, v) :: rest =>
    match key_deserialize_string k with
    | Except.error e => Except.error e
    | Except.ok s =>
      match map_keys_as_strings rest with
      | Except.error e => Except.error e
      | Except.ok r => Except.ok ((s, v) :: r)

/-! ## Theorems -/

/-- C1: for every call to `next_solution` on an open (activated) query
context, the solve-step result code is mapped as follows: `-1` (Exception)
fetches the query's pending exception, re-raises it as the sticky current
exception, and returns `Err(Exception)`; `0` returns `Err(Failure)`; `1`
(more solutions possible) returns `Ok(true)`; `2` (last solution) returns
`Ok(false)`; any other code panics. -/
theorem c1_next_solution_result_mapping (ctx : Context OpenQuery) (s : EngineState)
    (code : Int) (hact : ctx.activated = true) :
    (code = -1 →
      OpenQuery.next_solution ctx s code =
        Outcome.ok (Except.error PrologError.Exception,
          { s with pending_exception := some (s.query_exception ctx.context.qid) })) ∧
    (code = 0 →
      OpenQuery.next_solution ctx s code =
        Outcome.ok (Except.error PrologError.Failure, s)) ∧
    (code = 1 →
      OpenQuery.next_solution ctx s code = Outcome.ok (Except.ok true, s)) ∧
    (code = 2 →
      OpenQuery.next_solution ctx s code = Outcome.ok (Except.ok false, s)) ∧
    (code ≠ -1 → code ≠ 0 → code ≠ 1 → code ≠ 2 →
      OpenQuery.next_solution ctx s code =
        Outcome.fatal ("unknown query result type " ++ toString code)) := by
  unfold OpenQuery.next_solution Context.assert_activated
  rw [hact]
  refine ⟨?_, ?_, ?_, ?_, ?_⟩ <;> intros <;> simp_all

/-- Witness for C1 at a concrete input: an activated query context with
query id 3 and a pending exception value 42 for that query, solve-step
code `-1`. -/
theorem c1_witness :
    OpenQuery.next_solution
      { activated := true, engine_ptr := 1, context := { qid := 3, closed := false } }
      { pending_exception := none, query_exception := fun _ => 42,
        next_term_ref := 0, next_qid := 1 } (-1) =
      Outcome.ok (Except.error PrologError.Exception,
        { pending_exception := some 42, query_exception := fun _ => 42,
          next_term_ref := 0, next_qid := 1 }) :=
  (c1_next_solution_result_mapping _ _ _ rfl).1 rfl

/-- C2: an open query is closed exactly once on every exit path.  `cut`
releases the query id through `PL_cut_query` and marks the query closed,
`discard` releases it through `PL_close_query` and marks it closed, a drop
of a still-open query performs `PL_close_query`, a drop after an explicit
cut or discard performs nothing, and each of the three exit paths
(cut-then-drop, discard-then-drop, drop alone) performs exactly one
releasing engine operation on the query id. -/
theorem c2_query_released_exactly_once (ctx : Context OpenQuery)
    (hact : ctx.activated = true) (hopen : ctx.context.closed = false) :
    OpenQuery.cut ctx =
      Outcome.ok ({ ctx.context with closed := true }, [QueryOp.cut_query ctx.context.qid]) ∧
    OpenQuery.discard ctx =
      Outcome.ok ({ ctx.context with closed := true }, [QueryOp.close_query ctx.context.qid]) ∧
    OpenQuery.drop ctx.context = [QueryOp.close_query ctx.context.qid] ∧
    OpenQuery.drop { ctx.context with closed := true } = [] ∧
    cut_then_drop ctx = Outcome.ok [QueryOp.cut_query ctx.context.qid] ∧
    discard_then_drop ctx = Outcome.ok [QueryOp.close_query ctx.context.qid] := by
  simp [OpenQuery.cut, OpenQuery.discard, OpenQuery.drop, cut_then_drop,
    discard_then_drop, Context.assert_activated, hact, hopen]

/-- Witness for C2 at a concrete input: the cut-then-drop exit path on an
activated context over the open query with id 3 performs exactly the single
operation `PL_cut_query(3)`. -/
theorem c2_witness :
    cut_then_drop
      { activated := true, engine_ptr := 1, context := { qid := 3, closed := false } } =
      Outcome.ok [QueryOp.cut_query 3] :=
  (c2_query_released_exactly_once _ rfl rfl).2.2.2.2.1

/-- C3: `once()` is `next_solution()` followed by `cut()`.  When
`next_solution` returns `Ok`, the query is cut (the only releasing
operation is `PL_cut_query`) and `once` returns `Ok(())`; when
`next_solution` returns an error — `Exception` or `Failure` — `once`
propagates that error without cutting (the dropped query is released by
`PL_close_query`, never `PL_cut_query`). -/
theorem c3_once_is_next_solution_then_cut (ctx : Context OpenQuery) (s : EngineState)
    (code : Int) (hopen : ctx.context.closed = false) :
    (∀ (b : Bool) (s' : EngineState),
      OpenQuery.next_solution ctx s code = Outcome.ok (Except.ok b, s') →
      Context.once ctx s code =
        Outcome.ok (Except.ok (), s', [QueryOp.cut_query ctx.context.qid])) ∧
    (∀ (e : PrologError) (s' : EngineState),
      OpenQuery.next_solution ctx s code = Outcome.ok (Except.error e, s') →
      Context.once ctx s code =
        Outcome.ok (Except.error e, s', [QueryOp.close_query ctx.context.qid])) := by
  constructor
  · intro b s' h
    have hact : ctx.activated = true := by
      cases hba : ctx.activated with
      | true => rfl
      | false => simp [OpenQuery.next_solution, Context.assert_activated, hba] at h
    unfold Context.once
    rw [h]
    simp [OpenQuery.cut, Context.assert_activated, hact, OpenQuery.drop]
  · intro e s' h
    unfold Context.once
    rw [h]
    simp [OpenQuery.drop, hopen]

/-- Witness for C3 at a concrete input: on solve-step code `1` (a solution,
more possible), `once` cuts and returns `Ok(())`. -/
theorem c3_witness :
    Context.once
      { activated := true, engine_ptr := 1, context := { qid := 3, closed := false } }
      { pending_exception := none, query_exception := fun _ => 42,
        next_term_ref := 0, next_qid := 1 } 1 =
      Outcome.ok (Except.ok (),
        { pending_exception := none, query_exception := fun _ => 42,
          next_term_ref := 0, next_qid := 1 }, [QueryOp.cut_query 3]) :=
  (c3_once_is_next_solution_then_cut _ _ _ rfl).1 true _ rfl

/-- C4: `ignore()` returns `Ok(())` and cuts the query both when
`next_solution` succeeds and when it returns logical `Failure`; it returns
`Err(Exception)` without cutting (the dropped query is released by
`PL_close_query`) exactly when `next_solution` returns `Exception`. -/
theorem c4_ignore_swallows_failure (ctx : Context OpenQuery) (s : EngineState)
    (code : Int) (hopen : ctx.context.closed = false) :
    (∀ (b : Bool) (s' : EngineState),
      OpenQuery.next_solution ctx s code = Outcome.ok (Except.ok b, s') →
      Context.ignore ctx s code =
        Outcome.ok (Except.ok (), s', [QueryOp.cut_query ctx.context.qid])) ∧
    (∀ (s' : EngineState),
      OpenQuery.next_solution ctx s code =
        Outcome.ok (Except.error PrologError.Failure, s') →
      Context.ignore ctx s code =
        Outcome.ok (Except.ok (), s', [QueryOp.cut_query ctx.context.qid])) ∧
    (∀ (s' : EngineState),
      OpenQuery.next_solution ctx s code =
        Outcome.ok (Except.error PrologError.Exception, s') →
      Context.ignore ctx s code =
        Outcome.ok (Except.error PrologError.Exception, s',
          [QueryOp.close_query ctx.context.qid])) := by
  have hact_of : ∀ (r : PrologResult Bool × EngineState),
      OpenQuery.next_solution ctx s code = Outcome.ok r → ctx.activated = true := by
    intro r h
    cases hba : ctx.activated with
    | true => rfl
    | false => simp [OpenQuery.next_solution, Context.assert_activated, hba] at h
  refine ⟨?_, ?_, ?_⟩
  · intro b s' h
    have hact := hact_of _ h
    unfold Context.ignore
    rw [h]
    simp [OpenQuery.cut, Context.assert_activated, hact, OpenQuery.drop]
  · intro s' h
    have hact := hact_of _ h
    unfold Context.ignore
    rw [h]
    simp [OpenQuery.cut, Context.assert_activated, hact, OpenQuery.drop]
  · intro s' h
    unfold Context.ignore
    rw [h]
    simp [OpenQuery.drop, hopen]

/-- Witness for C4 at a concrete input: on solve-step code `0` (logical
failure), `ignore` swallows the failure, cuts, and returns `Ok(())`. -/
theorem c4_witness :
    Context.ignore
      { activated := true, engine_ptr := 1, context := { qid := 3, closed := false } }
      { pending_exception := none, query_exception := fun _ => 42,
        next_term_ref := 0, next_qid := 1 } 0 =
      Outcome.ok (Except.ok (),
        { pending_exception := none, query_exception := fun _ => 42,
          next_term_ref := 0, next_qid := 1 }, [QueryOp.cut_query 3]) :=
  (c4_ignore_swallows_failure _ _ _ rfl).2.1 _ rfl

/-- When every argument unification succeeds, the unification loop of
`open` performs, in order, one successful unification of slot `terms + i + j`
with `args[j]` for each `j` below the argument count. -/
theorem open_unify_args_spec (unify_ok : Nat → Nat → Bool) (terms : Nat) :
    ∀ (args : List Nat) (i : Nat),
      (∀ j, j < args.length → unify_ok (terms + i + j) (args.getD j 0) = true) →
      open_unify_args unify_ok terms i args =
        Outcome.ok ((List.range args.length).map
          (fun j => OpenEvent.unify (terms + i + j) (args.getD j 0) true)) := by
  intro args
  induction args with
  | nil => intro i _; rfl
  | cons a rest ih =>
    intro i h
    have h0 : unify_ok (terms + i) a = true := by
      simpa using h 0 (Nat.succ_pos rest.length)
    have hrest : ∀ j, j < rest.length →
        unify_ok (terms + (i + 1) + j) (rest.getD j 0) = true := by
      intro j hj
      have hidx := h (j + 1) (Nat.succ_lt_succ hj)
      rw [List.getD_cons_succ] at hidx
      have harith : terms + (i + 1) + j = terms + i + (j + 1) := by omega
      rw [harith]
      exact hidx
    rw [open_unify_args, if_pos h0, ih (i + 1) hrest]
    dsimp only
    rw [List.length_cons, List.range_succ_eq_map, List.map_cons, List.map_map]
    refine congrArg Outcome.ok (congrArg₂ List.cons (by simp) ?_)
    apply List.map_congr_left
    intro j _
    simp only [Function.comp_apply, List.getD_cons_succ]
    congr 1
    omega

/-- When some argument unification fails, the unification loop of `open`
aborts with the failed assertion. -/
theorem open_unify_args_fail (unify_ok : Nat → Nat → Bool) (terms : Nat) :
    ∀ (args : List Nat) (i : Nat),
      ¬ (∀ j, j < args.length → unify_ok (terms + i + j) (args.getD j 0) = true) →
      open_unify_args unify_ok terms i args =
        Outcome.fatal "assertion failed: term.unify(arg).is_ok()" := by
  intro args
  induction args with
  | nil =>
    intro i h
    exact absurd (fun j hj => absurd hj (Nat.not_lt_zero j)) h
  | cons a rest ih =>
    intro i h
    by_cases h0 : unify_ok (terms + i) a = true
    · have hrest : ¬ (∀ j, j < rest.length →
          unify_ok (terms + (i + 1) + j) (rest.getD j 0) = true) := by
        intro hall
        apply h
        intro j hj
        cases j with
        | zero => simpa using h0
        | succ j' =>
          have hidx := hall j' (Nat.lt_of_succ_lt_succ hj)
          rw [List.getD_cons_succ]
          have harith : terms + i + (j' + 1) = terms + (i + 1) + j' := by omega
          rw [harith]
          exact hidx
      rw [open_unify_args, if_pos h0, ih (i + 1) hrest]
    · rw [open_unify_args, if_neg h0]

/-- C5: for a `CallablePredicate` over `N` arguments, `open` first asserts
the context is activated and that no engine-level exception is pending
(otherwise the open is refused), allocates `N` fresh term slots, unifies
slot `i` with `args[i]` for every `i < N` asserting each unification
succeeds (a failure is fatal), opens the engine query over those slots,
deactivates the parent context, and returns a newly activated child context
on the same engine holding the open query. -/
theorem c5_open_allocates_unifies_and_activates_child (self : CallablePredicate)
    (unify_ok : Nat → Nat → Bool) {τ : Type} (context : Context τ)
    (s : EngineState) (module : Option Module) (args : List Nat) :
    (context.activated = true → s.pending_exception = none →
      (∀ j, j < args.length → unify_ok (s.next_term_ref + j) (args.getD j 0) = true) →
      self.open_ unify_ok context s module args =
        Outcome.ok
          { parent_activated := false
            child := { activated := true, engine_ptr := context.engine_ptr,
                       context := { qid := s.next_qid, closed := false } }
            state := { s with next_term_ref := s.next_term_ref + args.length,
                              next_qid := s.next_qid + 1 }
            events := OpenEvent.new_term_refs s.next_term_ref args.length ::
              (List.range args.length).map
                (fun j => OpenEvent.unify (s.next_term_ref + j) (args.getD j 0) true)
              ++ [OpenEvent.open_query ((module.map Module.module_ptr).getD 0)
                    open_query_flags self.predicate s.next_term_ref] }) ∧
    (context.activated = false →
      self.open_ unify_ok context s module args =
        Outcome.fatal "assert_activated: context is not active") ∧
    (context.activated = true → ∀ e, s.pending_exception = some e →
      self.open_ unify_ok context s module args =
        Outcome.fatal "assert_no_exception: a prolog exception is pending") ∧
    (context.activated = true → s.pending_exception = none →
      ¬ (∀ j, j < args.length → unify_ok (s.next_term_ref + j) (args.getD j 0) = true) →
      self.open_ unify_ok context s module args =
        Outcome.fatal "assertion failed: term.unify(arg).is_ok()") := by
  refine ⟨?_, ?_, ?_, ?_⟩
  · intro hact hexc hunify
    have hloop := open_unify_args_spec unify_ok s.next_term_ref args 0
      (by simpa using hunify)
    unfold CallablePredicate.open_
    simp only [Context.assert_activated, Context.assert_no_exception, hact, hexc,
      if_true, reduceIte]
    rw [hloop]
    simp
  · intro hact
    unfold CallablePredicate.open_
    simp [Context.assert_activated, hact]
  · intro hact e hexc
    unfold CallablePredicate.open_
    simp [Context.assert_activated, Context.assert_no_exception, hact, hexc]
  · intro hact hexc hfail
    have hloop := open_unify_args_fail unify_ok s.next_term_ref args 0
      (by simpa using hfail)
    unfold CallablePredicate.open_
    simp only [Context.assert_activated, Context.assert_no_exception, hact, hexc,
      if_true, reduceIte]
    rw [hloop]

/-- Witness for C5 at a concrete input: opening a two-argument query from an
activated, exception-free context allocates slots 10 and 11, unifies them
with the two argument terms, opens query id 7, deactivates the parent and
activates the child. -/
theorem c5_witness :
    CallablePredicate.open_ { predicate := 99 } (fun _ _ => true)
      { activated := true, engine_ptr := 1, context := () }
      { pending_exception := none, query_exception := fun _ => 0,
        next_term_ref := 10, next_qid := 7 }
      (some { module_ptr := 5 }) [21, 22] =
      Outcome.ok
        { parent_activated := false
          child := { activated := true, engine_ptr := 1,
                     context := { qid := 7, closed := false } }
          state := { pending_exception := none, query_exception := fun _ => 0,
                     next_term_ref := 12, next_qid := 8 }
          events := [OpenEvent.new_term_refs 10 2,
            OpenEvent.unify 10 21 true, OpenEvent.unify 11 22 true,
            OpenEvent.open_query 5 open_query_flags 99 10] } := by
  have h := (c5_open_allocates_unifies_and_activates_child
    { predicate := 99 } (fun _ _ => true)
    { activated := true, engine_ptr := 1, context := () }
    { pending_exception := none, query_exception := fun _ => 0,
      next_term_ref := 10, next_qid := 7 }
    (some { module_ptr := 5 }) [21, 22]).1 rfl rfl (by intro j hj; rfl)
  simpa using h

/-- C6 counterexample: at `N = 65536` (the type `CallablePredicate::<65536>`
is legal Rust) and a predicate of arity `0`, the arity differs from `N`, so
an error is returned as claimed — but its `expected` field is
`N as u16 = 0`, not `N = 65536`. -/
theorem c6_counterexample :
    CallablePredicate.new 65536 true { arity := 0, predicate_ptr := 1 } =
      Outcome.ok (Except.error { expected := 0, actual := 0 }) ∧ (0 : Nat) ≠ 65536 :=
  ⟨rfl, by decide⟩

/-- C6 (amended): `CallablePredicate::<N>::new(predicate)` returns
`Err(WrongArity { expected: N as u16, actual: arity })` — `expected` is `N`
truncated to `u16`, i.e. `N % 2^16`, which equals `N` whenever
`N < 2^16` — exactly when the predicate's real arity differs from `N`, and
never a successful wrap in that case; when the arity equals `N` it returns
`Ok` with a wrapper around the predicate's pointer. -/
theorem c6_wrong_arity_check (N : Nat) (engine_active : Bool) (predicate : Predicate)
    (hengine : engine_active = true) :
    (predicate.arity ≠ N →
      CallablePredicate.new N engine_active predicate =
        Outcome.ok (Except.error { expected := N % 65536, actual := predicate.arity })) ∧
    (predicate.arity = N →
      CallablePredicate.new N engine_active predicate =
        Outcome.ok (Except.ok { predicate := predicate.predicate_ptr })) ∧
    (N < 65536 → N % 65536 = N) := by
  refine ⟨?_, ?_, fun h => Nat.mod_eq_of_lt h⟩
  · intro hne
    simp [CallablePredicate.new, assert_some_engine_is_active, hengine, hne]
  · intro heq
    simp [CallablePredicate.new, assert_some_engine_is_active, hengine, heq]

/-- Witness for C6 at a concrete input: wrapping an arity-3 predicate as a
`CallablePredicate::<2>` yields `WrongArity { expected: 2, actual: 3 }`. -/
theorem c6_witness :
    CallablePredicate.new 2 true { arity := 3, predicate_ptr := 1 } =
      Outcome.ok (Except.error { expected := 2, actual := 3 }) :=
  (c6_wrong_arity_check 2 true { arity := 3, predicate_ptr := 1 } rfl).1 (by decide)

/-- C7: every operation generated by the `unifiable!` / `term_getable!`
macros, and `Term::get_str`, first checks that the term's originating engine
is currently active and that it equals the supplied context's engine, and
panics when either check fails; additionally, unifying two `Term`s whose
originating engines differ panics. -/
theorem c7_term_engine_checks {α β R τ : Type}
    (ubody : α → Context τ → Term → Outcome Bool)
    (gbody : Context τ → Term → Outcome (Option β))
    (self : α) (context : Context τ) (t t₁ t₂ : Term)
    (pl_unify : Nat → Nat → Bool) (pl_get_nchars : Nat → Option String)
    (func : Option String → R) :
    (t.context.is_engine_active = false →
      unifiable_unify ubody self context t =
        Outcome.fatal "term is not part of an active engine" ∧
      term_getable_get gbody context t =
        Outcome.fatal "term is not part of an active engine" ∧
      Term.get_str t pl_get_nchars func =
        Outcome.fatal "term is not part of an active engine") ∧
    (t.context.is_engine_active = true →
      t.context.origin_engine_ptr ≠ context.engine_ptr →
      unifiable_unify ubody self context t =
        Outcome.fatal
          "term unification called with a context whose engine does not match this term" ∧
      term_getable_get gbody context t =
        Outcome.fatal
          "term unification called with a context whose engine does not match this term") ∧
    (t₁.context.origin_engine_ptr ≠ t₂.context.origin_engine_ptr →
      ∃ msg, term_unify_term pl_unify t₁ context t₂ = Outcome.fatal msg) := by
  refine ⟨?_, ?_, ?_⟩
  · intro hin
    refine ⟨?_, ?_, ?_⟩ <;>
      simp [unifiable_unify, term_getable_get, Term.get_str,
        Term.assert_term_handling_possible, hin]
  · intro hact hmis
    constructor <;>
      simp [unifiable_unify, term_getable_get, Term.assert_term_handling_possible,
        hact, hmis]
  · intro hne
    by_cases h1 : t₂.context.is_engine_active = true
    · by_cases h2 : t₂.context.origin_engine_ptr = context.engine_ptr
      · refine ⟨"terms being unified are not part of the same engine", ?_⟩
        have hne' : t₁.context.origin_engine_ptr ≠ context.engine_ptr := h2 ▸ hne
        simp [term_unify_term, unifiable_unify, term_unify_term_body,
          Term.assert_term_handling_possible, h1, h2, hne, hne']
      · exact ⟨"term unification called with a context whose engine does not match this term",
          by simp [term_unify_term, unifiable_unify,
            Term.assert_term_handling_possible, h1, h2]⟩
    · exact ⟨"term is not part of an active engine",
        by simp [term_unify_term, unifiable_unify,
          Term.assert_term_handling_possible, h1]⟩

/-- Witness for C7 at a concrete input: a `unifiable!`-generated unification
on a term whose originating engine is no longer active panics. -/
theorem c7_witness :
    unifiable_unify (fun (_ : Unit) (_ : Context Unit) (_ : Term) => Outcome.ok true) ()
      { activated := true, engine_ptr := 1, context := () }
      { term := 0, context := { origin_engine_ptr := 1, is_engine_active := false } } =
      Outcome.fatal "term is not part of an active engine" :=
  ((c7_term_engine_checks
      (fun (_ : Unit) (_ : Context Unit) (_ : Term) => Outcome.ok true)
      (fun (_ : Context Unit) (_ : Term) => Outcome.ok (none : Option Unit)) ()
      { activated := true, engine_ptr := 1, context := () }
      { term := 0, context := { origin_engine_ptr := 1, is_engine_active := false } }
      { term := 0, context := { origin_engine_ptr := 1, is_engine_active := true } }
      { term := 0, context := { origin_engine_ptr := 2, is_engine_active := true } }
      (fun _ _ => true) (fun _ => none) (fun x => x)).1 rfl).1

/-- Filtering a replicated list by a predicate that is false on the
replicated element yields the empty list. -/
theorem filter_replicate_false {α : Type} (p : α → Bool) (x : α) (hx : p x = false) :
    ∀ k, (List.replicate k x).filter p = [] := by
  intro k
  induction k with
  | zero => rfl
  | succ k ih => simp [List.replicate_succ, List.filter_cons, hx, ih]

/-- A sequential run of `as_callable` on a cell whose cache is already
populated (non-null) is `k` identical no-lookup calls returning the cached
pointer. -/
theorem as_callable_iter_cached (resolve : String → String → Nat → Nat) (N : Nat) :
    ∀ (k : Nat) (self : LazyCallablePredicate), self.predicate ≠ 0 →
      LazyCallablePredicate.as_callable_iter resolve N k self =
        List.replicate k
          { callable := { predicate := self.predicate }, after := self,
            looked_up := false } := by
  intro k
  induction k with
  | zero => intro self _; rfl
  | succ k ih =>
    intro self h
    have hcall : LazyCallablePredicate.as_callable resolve true N self =
        Outcome.ok { callable := { predicate := self.predicate }, after := self,
                     looked_up := false } := by
      simp [LazyCallablePredicate.as_callable, assert_some_engine_is_active, h]
    rw [LazyCallablePredicate.as_callable_iter, hcall]
    dsimp only
    rw [ih self h]
    rfl

/-- C8: `as_callable` performs the `(module, name, arity)` lookup only on a
call that observes a null cached pointer, stores the result in the cell, and
returns a wrapper of the loaded pointer; consequently, in a sequential
execution of any number of calls the lookup runs at most once and every
call returns the same resolved handle.  (`hres` records that predicate
resolution produces a valid, non-null handle, per the spec's predicate
resolution interface.) -/
theorem c8_lazy_cache_resolves_once (resolve : String → String → Nat → Nat) (N : Nat)
    (self : LazyCallablePredicate)
    (hres : resolve (self.module.getD "") self.name (N % 65536) ≠ 0) :
    (self.predicate ≠ 0 →
      LazyCallablePredicate.as_callable resolve true N self =
        Outcome.ok { callable := { predicate := self.predicate }, after := self,
                     looked_up := false }) ∧
    (self.predicate = 0 →
      LazyCallablePredicate.as_callable resolve true N self =
        Outcome.ok
          { callable := { predicate := resolve (self.module.getD "") self.name (N % 65536) },
            after := { self with
              predicate := resolve (self.module.getD "") self.name (N % 65536) },
            looked_up := true }) ∧
    (∀ k : Nat,
      ((LazyCallablePredicate.as_callable_iter resolve N k self).filter
          (fun r => r.looked_up)).length ≤ 1 ∧
      ∀ r ∈ LazyCallablePredicate.as_callable_iter resolve N k self,
        r.callable.predicate =
          (if self.predicate = 0 then resolve (self.module.getD "") self.name (N % 65536)
           else self.predicate)) := by
  refine ⟨?_, ?_, ?_⟩
  · intro h
    simp [LazyCallablePredicate.as_callable, assert_some_engine_is_active, h]
  · intro h0
    simp [LazyCallablePredicate.as_callable, assert_some_engine_is_active, h0]
  · intro k
    by_cases h0 : self.predicate = 0
    · cases k with
      | zero => exact ⟨by simp [LazyCallablePredicate.as_callable_iter],
          by intro r hr; simp [LazyCallablePredicate.as_callable_iter] at hr⟩
      | succ k =>
        have hcall : LazyCallablePredicate.as_callable resolve true N self =
            Outcome.ok
              { callable :=
                  { predicate := resolve (self.module.getD "") self.name (N % 65536) },
                after := { self with
                  predicate := resolve (self.module.getD "") self.name (N % 65536) },
                looked_up := true } := by
          simp [LazyCallablePredicate.as_callable, assert_some_engine_is_active, h0]
        have hiter : LazyCallablePredicate.as_callable_iter resolve N (k + 1) self =
            { callable :=
                { predicate := resolve (self.module.getD "") self.name (N % 65536) },
              after := { self with
                predicate := resolve (self.module.getD "") self.name (N % 65536) },
              looked_up := true } ::
              List.replicate k
                { callable :=
                    { predicate := resolve (self.module.getD "") self.name (N % 65536) },
                  after := { self with
                    predicate := resolve (self.module.getD "") self.name (N % 65536) },
                  looked_up := false } := by
          rw [LazyCallablePredicate.as_callable_iter, hcall]
          dsimp only
          rw [as_callable_iter_cached resolve N k _ hres]
        constructor
        · rw [hiter]
          rw [List.filter_cons,
            filter_replicate_false (fun r : AsCallableResult => r.looked_up)
              { callable :=
                  { predicate := resolve (self.module.getD "") self.name (N % 65536) },
                after := { self with
                  predicate := resolve (self.module.getD "") self.name (N % 65536) },
                looked_up := false } rfl k]
          simp
        · intro r hr
          rw [hiter] at hr
          rw [if_pos h0]
          rcases List.mem_cons.mp hr with h | h
          · rw [h]
          · have := List.eq_of_mem_replicate h
            rw [this]
    · constructor
      · rw [as_callable_iter_cached resolve N k self h0]
        rw [filter_replicate_false (fun r : AsCallableResult => r.looked_up)
          { callable := { predicate := self.predicate }, after := self,
            looked_up := false } rfl k]
        simp
      · intro r hr
        rw [as_callable_iter_cached resolve N k self h0] at hr
        have := List.eq_of_mem_replicate hr
        rw [this, if_neg h0]

/-- Witness for C8 at a concrete input: three sequential calls on a fresh
(null) cache cell resolve once and all return the resolved handle 77. -/
theorem c8_witness :
    ((LazyCallablePredicate.as_callable_iter (fun _ _ _ => 77) 2 3
        (LazyCallablePredicate.new none "foo")).filter
      (fun r => r.looked_up)).length ≤ 1 ∧
    ∀ r ∈ LazyCallablePredicate.as_callable_iter (fun _ _ _ => 77) 2 3
        (LazyCallablePredicate.new none "foo"),
      r.callable.predicate = 77 := by
  have h := ((c8_lazy_cache_resolves_once (fun _ _ _ => 77) 2
    (LazyCallablePredicate.new none "foo") (by decide)).2.2) 3
  simpa using h

/-- `term_get_i64` succeeds exactly on an integer term within the signed
64-bit range, returning that integer. -/
theorem term_get_i64_eq_some (t : PValue) (v : Int) :
    term_get_i64 t = some v ↔
      t = PValue.int v ∧ -9223372036854775808 ≤ v ∧ v ≤ 9223372036854775807 := by
  cases t with
  | int i =>
    simp only [term_get_i64, PValue.int.injEq]
    split_ifs with h
    · constructor
      · intro hv
        rw [Option.some_inj] at hv
        subst hv
        exact ⟨rfl, h⟩
      · rintro ⟨hv, _⟩
        rw [hv]
    · constructor
      · intro hv; exact hv.elim
      · rintro ⟨hv, hb⟩
        subst hv
        exact absurd hb h
  | atom a => simp [term_get_i64]
  | str s => simp [term_get_i64]
  | other => simp [term_get_i64]

/-- `term_get_u64` succeeds exactly on an integer term within the unsigned
64-bit range, returning that integer. -/
theorem term_get_u64_eq_some (t : PValue) (v : Int) :
    term_get_u64 t = some v ↔
      t = PValue.int v ∧ 0 ≤ v ∧ v ≤ 18446744073709551615 := by
  cases t with
  | int i =>
    simp only [term_get_u64, PValue.int.injEq]
    split_ifs with h
    · constructor
      · intro hv
        rw [Option.some_inj] at hv
        subst hv
        exact ⟨rfl, h⟩
      · rintro ⟨hv, _⟩
        rw [hv]
    · constructor
      · intro hv; exact hv.elim
      · rintro ⟨hv, hb⟩
        subst hv
        exact absurd hb h
  | atom a => simp [term_get_u64]
  | str s => simp [term_get_u64]
  | other => simp [term_get_u64]

/-- The common shape of the six narrow-integer deserializers: read through
an intermediate `get`, test the target range, and classify errors. -/
theorem narrow_de_spec (get : PValue → Option Int) (P : Int → Prop) [DecidablePred P]
    (tyname : String) (f : PValue → Except DeError Int)
    (hf : ∀ u, f u = match get u with
      | some i => if P i then Except.ok i else Except.error DeError.ValueOutOfRange
      | none => Except.error (DeError.ValueNotOfExpectedType tyname)) (t : PValue) :
    (∀ v, f t = Except.ok v ↔ get t = some v ∧ P v) ∧
    (∀ i, get t = some i → ¬ P i → f t = Except.error DeError.ValueOutOfRange) ∧
    (get t = none → f t = Except.error (DeError.ValueNotOfExpectedType tyname)) := by
  refine ⟨?_, ?_, ?_⟩
  · intro v
    rw [hf t]
    cases hg : get t with
    | none =>
      constructor
      · intro hv; exact Except.noConfusion hv
      · rintro ⟨hv, _⟩; exact Option.noConfusion hv
    | some i =>
      dsimp only
      split_ifs with h
      · constructor
        · intro hv
          injection hv with hv
          subst hv
          exact ⟨rfl, h⟩
        · rintro ⟨hv, _⟩
          injection hv with hv
          rw [hv]
      · constructor
        · intro hv; exact hv.elim
        · rintro ⟨hv, hp⟩
          injection hv with hv
          subst hv
          exact absurd hp h
  · intro i hg hnp
    rw [hf t, hg]
    dsimp only
    rw [if_neg hnp]
  · intro hg
    rw [hf t, hg]

/-- C9 counterexample: the term holding the integer `-1` — an integer, and
one outside `u8`'s range — deserializes as `u8` to
`ValueNotOfExpectedType("u8")` (the unsigned intermediate read fails), not
to `ValueOutOfRange` as the claim states for integers outside the target
range. -/
theorem c9_counterexample :
    deserialize_u8 (PValue.int (-1)) =
      Except.error (DeError.ValueNotOfExpectedType "u8") ∧
    DeError.ValueNotOfExpectedType "u8" ≠ DeError.ValueOutOfRange :=
  ⟨rfl, fun h => DeError.noConfusion h⟩

/-- C9 (amended): deserializing a term into a narrow integer type succeeds
with value `v` exactly when the term holds an integer equal to `v` within
the target type's range; an integer representable in the intermediate type
(`i64` for signed targets, `u64` for unsigned targets) but outside the
target range yields `ValueOutOfRange`; and a term whose intermediate read
fails — a non-integer term, or an integer not representable in the
intermediate type, e.g. any negative integer for an unsigned target —
yields `ValueNotOfExpectedType`. -/
theorem c9_narrow_integer_deserialization (t : PValue) :
    ((∀ v, deserialize_i8 t = Except.ok v ↔
        t = PValue.int v ∧ -128 ≤ v ∧ v ≤ 127) ∧
     (∀ i, t = PValue.int i → -9223372036854775808 ≤ i → i ≤ 9223372036854775807 →
        ¬ (-128 ≤ i ∧ i ≤ 127) →
        deserialize_i8 t = Except.error DeError.ValueOutOfRange) ∧
     (term_get_i64 t = none →
        deserialize_i8 t = Except.error (DeError.ValueNotOfExpectedType "i8"))) ∧
    ((∀ v, deserialize_i16 t = Except.ok v ↔
        t = PValue.int v ∧ -32768 ≤ v ∧ v ≤ 32767) ∧
     (∀ i, t = PValue.int i → -9223372036854775808 ≤ i → i ≤ 9223372036854775807 →
        ¬ (-32768 ≤ i ∧ i ≤ 32767) →
        deserialize_i16 t = Except.error DeError.ValueOutOfRange) ∧
     (term_get_i64 t = none →
        deserialize_i16 t = Except.error (DeError.ValueNotOfExpectedType "i16"))) ∧
    ((∀ v, deserialize_i32 t = Except.ok v ↔
        t = PValue.int v ∧ -2147483648 ≤ v ∧ v ≤ 2147483647) ∧
     (∀ i, t = PValue.int i → -9223372036854775808 ≤ i → i ≤ 9223372036854775807 →
        ¬ (-2147483648 ≤ i ∧ i ≤ 2147483647) →
        deserialize_i32 t = Except.error DeError.ValueOutOfRange) ∧
     (term_get_i64 t = none →
        deserialize_i32 t = Except.error (DeError.ValueNotOfExpectedType "i32"))) ∧
    ((∀ v, deserialize_u8 t = Except.ok v ↔
        t = PValue.int v ∧ 0 ≤ v ∧ v ≤ 255) ∧
     (∀ i, t = PValue.int i → 0 ≤ i → i ≤ 18446744073709551615 → ¬ (i ≤ 255) →
        deserialize_u8 t = Except.error DeError.ValueOutOfRange) ∧
     (term_get_u64 t = none →
        deserialize_u8 t = Except.error (DeError.ValueNotOfExpectedType "u8"))) ∧
    ((∀ v, deserialize_u16 t = Except.ok v ↔
        t = PValue.int v ∧ 0 ≤ v ∧ v ≤ 65535) ∧
     (∀ i, t = PValue.int i → 0 ≤ i → i ≤ 18446744073709551615 → ¬ (i ≤ 65535) →
        deserialize_u16 t = Except.error DeError.ValueOutOfRange) ∧
     (term_get_u64 t = none →
        deserialize_u16 t = Except.error (DeError.ValueNotOfExpectedType "u16"))) ∧
    ((∀ v, deserialize_u32 t = Except.ok v ↔
        t = PValue.int v ∧ 0 ≤ v ∧ v ≤ 4294967295) ∧
     (∀ i, t = PValue.int i → 0 ≤ i → i ≤ 18446744073709551615 → ¬ (i ≤ 4294967295) →
        deserialize_u32 t = Except.error DeError.ValueOutOfRange) ∧
     (term_get_u64 t = none →
        deserialize_u32 t = Except.error (DeError.ValueNotOfExpectedType "u32"))) := by
  have hi8 := narrow_de_spec term_get_i64 (fun i => -128 ≤ i ∧ i ≤ 127) "i8"
    deserialize_i8 (fun u => rfl) t
  have hi16 := narrow_de_spec term_get_i64 (fun i => -32768 ≤ i ∧ i ≤ 32767) "i16"
    deserialize_i16 (fun u => rfl) t
  have hi32 := narrow_de_spec term_get_i64 (fun i => -2147483648 ≤ i ∧ i ≤ 2147483647) "i32"
    deserialize_i32 (fun u => rfl) t
  have hu8 := narrow_de_spec term_get_u64 (fun i => i ≤ 255) "u8"
    deserialize_u8 (fun u => rfl) t
  have hu16 := narrow_de_spec term_get_u64 (fun i => i ≤ 65535) "u16"
    deserialize_u16 (fun u => rfl) t
  have hu32 := narrow_de_spec term_get_u64 (fun i => i ≤ 4294967295) "u32"
    deserialize_u32 (fun u => rfl) t
  refine ⟨⟨?_, ?_, hi8.2.2⟩, ⟨?_, ?_, hi16.2.2⟩, ⟨?_, ?_, hi32.2.2⟩,
    ⟨?_, ?_, hu8.2.2⟩, ⟨?_, ?_, hu16.2.2⟩, ⟨?_, ?_, hu32.2.2⟩⟩
  · intro v
    rw [hi8.1 v, term_get_i64_eq_some]
    constructor
    · rintro ⟨⟨ht, _, _⟩, hlo, hhi⟩; exact ⟨ht, hlo, hhi⟩
    · rintro ⟨ht, hlo, hhi⟩; exact ⟨⟨ht, by omega, by omega⟩, hlo, hhi⟩
  · intro i ht hlo hhi hnot
    exact hi8.2.1 i ((term_get_i64_eq_some t i).mpr ⟨ht, hlo, hhi⟩) hnot
  · intro v
    rw [hi16.1 v, term_get_i64_eq_some]
    constructor
    · rintro ⟨⟨ht, _, _⟩, hlo, hhi⟩; exact ⟨ht, hlo, hhi⟩
    · rintro ⟨ht, hlo, hhi⟩; exact ⟨⟨ht, by omega, by omega⟩, hlo, hhi⟩
  · intro i ht hlo hhi hnot
    exact hi16.2.1 i ((term_get_i64_eq_some t i).mpr ⟨ht, hlo, hhi⟩) hnot
  · intro v
    rw [hi32.1 v, term_get_i64_eq_some]
    constructor
    · rintro ⟨⟨ht, _, _⟩, hlo, hhi⟩; exact ⟨ht, hlo, hhi⟩
    · rintro ⟨ht, hlo, hhi⟩; exact ⟨⟨ht, by omega, by omega⟩, hlo, hhi⟩
  · intro i ht hlo hhi hnot
    exact hi32.2.1 i ((term_get_i64_eq_some t i).mpr ⟨ht, hlo, hhi⟩) hnot
  · intro v
    rw [hu8.1 v, term_get_u64_eq_some]
    constructor
    · rintro ⟨⟨ht, h0, _⟩, hhi⟩; exact ⟨ht, h0, hhi⟩
    · rintro ⟨ht, h0, hhi⟩; exact ⟨⟨ht, h0, by omega⟩, hhi⟩
  · intro i ht h0 hhi hnot
    exact hu8.2.1 i ((term_get_u64_eq_some t i).mpr ⟨ht, h0, hhi⟩) hnot
  · intro v
    rw [hu16.1 v, term_get_u64_eq_some]
    constructor
    · rintro ⟨⟨ht, h0, _⟩, hhi⟩; exact ⟨ht, h0, hhi⟩
    · rintro ⟨ht, h0, hhi⟩; exact ⟨⟨ht, h0, by omega⟩, hhi⟩
  · intro i ht h0 hhi hnot
    exact hu16.2.1 i ((term_get_u64_eq_some t i).mpr ⟨ht, h0, hhi⟩) hnot
  · intro v
    rw [hu32.1 v, term_get_u64_eq_some]
    constructor
    · rintro ⟨⟨ht, h0, _⟩, hhi⟩; exact ⟨ht, h0, hhi⟩
    · rintro ⟨ht, h0, hhi⟩; exact ⟨⟨ht, h0, by omega⟩, hhi⟩
  · intro i ht h0 hhi hnot
    exact hu32.2.1 i ((term_get_u64_eq_some t i).mpr ⟨ht, h0, hhi⟩) hnot

/-- Witness for C9 at a concrete input: the integer `70000` is readable as
`u64` but exceeds `u16::MAX`, so `deserialize_u16` yields
`ValueOutOfRange`. -/
theorem c9_witness :
    deserialize_u16 (PValue.int 70000) = Except.error DeError.ValueOutOfRange :=
  (c9_narrow_integer_deserialization (PValue.int 70000)).2.2.2.2.1.2.1 70000 rfl
    (by decide) (by decide) (by decide)

/-- C10: an integer dict key requested as a string or identifier does not
error: `KeyDeserializer` yields the integer's decimal representation, an
atom key yields the atom's name, both `deserialize_string` and
`deserialize_identifier` succeed on every key, and deserializing all keys
of a dict into strings succeeds. -/
theorem c10_integer_dict_keys_deserialize_as_strings (α : Type) :
    (∀ i : Nat, key_deserialize_string (Key.Int i) = Except.ok (Nat.repr i) ∧
      key_deserialize_identifier (Key.Int i) = Except.ok (Nat.repr i)) ∧
    (∀ a : String, key_deserialize_string (Key.Atom a) = Except.ok a ∧
      key_deserialize_identifier (Key.Atom a) = Except.ok a) ∧
    (∀ k : Key, (∃ s, key_deserialize_string k = Except.ok s) ∧
      (∃ s, key_deserialize_identifier k = Except.ok s)) ∧
    (∀ entries : List (Key × α), ∃ l, map_keys_as_strings entries = Except.ok l) := by
  refine ⟨fun i => ⟨rfl, rfl⟩, fun a => ⟨rfl, rfl⟩, ?_, ?_⟩
  · intro k
    cases k with
    | Atom a => exact ⟨⟨a, rfl⟩, ⟨a, rfl⟩⟩
    | Int i => exact ⟨⟨Nat.repr i, rfl⟩, ⟨Nat.repr i, rfl⟩⟩
  · intro entries
    induction entries with
    | nil => exact ⟨[], rfl⟩
    | cons kv rest ih =>
      obtain ⟨l, hl⟩ := ih
      obtain ⟨kk, vv⟩ := kv
      cases kk with
      | Atom a =>
        exact ⟨(a, vv) :: l, by rw [map_keys_as_strings, key_deserialize_string, hl]⟩
      | Int i =>
        exact ⟨(Nat.repr i, vv) :: l,
          by rw [map_keys_as_strings, key_deserialize_string, hl]⟩

end SwiplRs
